import Mathlib

/-!
Shallow embedding of the shop-data pipeline scripts
`geocode_korean_addresses.py` and `transform_shops_for_supabase.py`.

Python strings are modelled as Lean `String`; the handful of Python `str`
operations the scripts use (`split`, `strip`, `replace`, `startswith`,
substring containment, `float` parsing) are given executable char-list
models below.  Machine floats are modelled as rationals built with `mkRat`
(the coordinate strings in question are plain decimal literals, for which
the rational model is exact).  External effects (HTTP responses,
environment variables, fresh UUIDs, timestamps) are passed in as explicit
parameters or oracle functions.
-/

/-- Model of Python list/`str` prefix test at char-list level. -/
def listPrefixCheck : List Char → List Char → Bool
  | [], _ => true
  | _ :: _, [] => false
  | a :: as, b :: bs => a == b && listPrefixCheck as bs

/-- Model of Python `needle in hay` substring containment at char-list level. -/
def substrCheck : List Char → List Char → Bool
  | n, [] => listPrefixCheck n []
  | n, h :: t => listPrefixCheck n (h :: t) || substrCheck n t

/-- Split a char list on a separator char; `Python str.split(sep)` semantics:
the empty list yields one empty group. -/
def splitOnChar (sep : Char) : List Char → List (List Char)
  | [] => [[]]
  | c :: cs =>
    let r := splitOnChar sep cs
    if c == sep then [] :: r
    else
      match r with
      | [] => [[c]]
      | g :: gs => (c :: g) :: gs

/-- Model of Python single-char `str.replace(a, b)`. -/
def pyReplaceChar (a b : Char) (l : List Char) : List Char :=
  l.map fun c => if c == a then b else c

/-- Strip whitespace from both ends, Python `str.strip()`. -/
def trimChars (l : List Char) : List Char :=
  ((l.dropWhile Char.isWhitespace).reverse.dropWhile Char.isWhitespace).reverse

/-- Python `str.strip()` on strings. -/
def pyStrip (s : String) : String :=
  String.mk (trimChars s.data)

/-- Whitespace-run split, Python `str.split()` with no argument:
splits on runs of whitespace and drops empty fields.  `cur` accumulates the
current word in reverse. -/
def wsSplitAux : List Char → List Char → List (List Char)
  | cur, [] => if cur.isEmpty then [] else [cur.reverse]
  | cur, c :: cs =>
    if c.isWhitespace then
      if cur.isEmpty then wsSplitAux [] cs else cur.reverse :: wsSplitAux [] cs
    else wsSplitAux (c :: cur) cs

/-- Join words with single spaces, Python `' '.join(words)`. -/
def joinSpaceChars : List (List Char) → List Char
  | [] => []
  | [w] => w
  | w :: ws => w ++ ' ' :: joinSpaceChars ws

/-- Numeric value of a digit list. -/
def digitsVal (l : List Char) : Nat :=
  l.foldl (fun n c => 10 * n + (c.toNat - 48)) 0

/-- Model of Python `float(s)` restricted to the decimal literals the
pipeline feeds it: optional surrounding whitespace, optional sign, an
integer part and an optional fractional part.  Returns the exact rational
value, or `none` when the string is not such a literal (Python raises
`ValueError` there). -/
def pyFloatParse (s : String) : Option ℚ :=
  let t := trimChars s.data
  let sg : ℤ × List Char :=
    match t with
    | '-' :: r => (-1, r)
    | '+' :: r => (1, r)
    | r => (1, r)
  let ip := sg.2.takeWhile fun c => !(c == '.')
  match sg.2.dropWhile fun c => !(c == '.') with
  | [] =>
    if ip.isEmpty || !(ip.all Char.isDigit) then none
    else some (mkRat (sg.1 * (digitsVal ip : ℤ)) 1)
  | _ :: fp =>
    if (ip.isEmpty && fp.isEmpty) || !(ip.all Char.isDigit) || !(fp.all Char.isDigit) then none
    else some (mkRat (sg.1 * ((digitsVal ip * 10 ^ fp.length + digitsVal fp : Nat) : ℤ)) (10 ^ fp.length))

/-! ## transform_shops_for_supabase.py -/

/-- Korean shop type to ServiceCategory enum mapping, in dict insertion
order (Python dicts iterate in insertion order). -/
def CATEGORY_MAPPING : List (String × String) :=
  [("네일미용업", "nail"),
   ("일반미용업", "hair"),
   ("종합미용업", "hair"),
   ("피부미용업", "waxing"),
   ("화장ㆍ분장 미용업", "eyebrow_tattoo"),
   ("미용업", "hair")]

/-- Valid enum values. -/
def VALID_CATEGORIES : List String :=
  ["nail", "eyelash", "waxing", "eyebrow_tattoo", "hair"]

/-- Values actually reachable from the mapping together with the default. -/
def REACHABLE_CATEGORIES : List String :=
  ["nail", "hair", "waxing", "eyebrow_tattoo"]

/-- `clean_phone_number`: collapse whitespace runs via `str.split()` +
`' '.join`, then prepend `'0'` unless the result already starts with it. -/
def clean_phone_number (phone : String) : String :=
  let cleaned := joinSpaceChars (wsSplitAux [] phone.data)
  if listPrefixCheck ['0'] cleaned then String.mk cleaned
  else String.mk ('0' :: cleaned)

/-- Per-token category lookup inside `parse_shop_type`: exact dict lookup,
then first dict entry (in insertion order) whose Korean label is a
substring of the token, else the default `"hair"`. -/
def mapCategoryToken (t : String) : String :=
  match CATEGORY_MAPPING.find? (fun p => p.1 == t) with
  | some p => p.2
  | none =>
    match CATEGORY_MAPPING.find? (fun p => substrCheck p.1.data t.data) with
    | some p => p.2
    | none => "hair"

/-- Order-preserving de-duplication, mirroring the `seen` set loop. -/
def dedupFirstSeen (seen : List String) : List String → List String
  | [] => []
  | c :: cs =>
    if seen.contains c then dedupFirstSeen seen cs
    else c :: dedupFirstSeen (c :: seen) cs

/-- `parse_shop_type`: split on ASCII/full-width commas, strip tokens, map
each token to a category, de-duplicate preserving order, and return
`(main, subs)`. -/
def parse_shop_type (type_str : String) : String × Option (List String) :=
  let types :=
    (splitOnChar ',' (pyReplaceChar '，' ',' type_str.data)).map fun g => String.mk (trimChars g)
  let categories := types.map mapCategoryToken
  let unique_categories := dedupFirstSeen [] categories
  match unique_categories with
  | [] => ("hair", none)
  | main :: rest => (main, if rest.isEmpty then none else some rest)

/-- One CSV row as seen by the transformer (`csv.DictReader` output).
`latitude`/`longitude` are `none` when the column is absent and
`some ""` when present but blank, matching `row.get` semantics. -/
structure ShopRow where
  shop_name : String
  address : String
  phone_number : String
  type_of_shop : String
  latitude : Option String
  longitude : Option String
deriving DecidableEq

/-- Python truthiness test `not row.get(k)` for an optional string field. -/
def pyFalsy : Option String → Bool
  | none => true
  | some s => s.data.isEmpty

/-- One output record of the transformer. -/
structure NormalizedShop where
  id : String
  name : String
  address : String
  phone_number : String
  latitude : ℚ
  longitude : ℚ
  main_category : String
  sub_categories : Option (List String)
  shop_type : String
  shop_status : String
  verification_status : String
  commission_rate : ℚ
  total_bookings : Nat
  is_featured : Bool
  created_at : String
  updated_at : String
deriving DecidableEq

/-- Result of `transform_shop` on one row, keeping apart the two skip
prints and whether the out-of-Seoul-bounds warning was printed. -/
inductive TransformOutcome where
  | skipNoCoordinates : TransformOutcome
  | skipInvalidCoordinates : TransformOutcome
  | built (boundsWarning : Bool) (shop : NormalizedShop) : TransformOutcome
deriving DecidableEq

/-- The Seoul bounding box test `37.4 <= lat <= 37.7 and 126.8 <= lon <= 127.2`. -/
def inSeoulBounds (lat lon : ℚ) : Bool :=
  decide (mkRat 374 10 ≤ lat ∧ lat ≤ mkRat 377 10 ∧ mkRat 1268 10 ≤ lon ∧ lon ≤ mkRat 1272 10)

/-- The shop dict literal built by `transform_shop`; `shop_id` and `now`
stand for the freshly generated UUID and UTC timestamp. -/
def buildShop (shop_id now : String) (row : ShopRow) (lat lon : ℚ) : NormalizedShop :=
  { id := shop_id
    name := pyStrip row.shop_name
    address := pyStrip row.address
    phone_number := clean_phone_number row.phone_number
    latitude := lat
    longitude := lon
    main_category := (parse_shop_type row.type_of_shop).1
    sub_categories := (parse_shop_type row.type_of_shop).2
    shop_type := "non_partnered"
    shop_status := "pending_approval"
    verification_status := "pending"
    commission_rate := mkRat 15 100
    total_bookings := 0
    is_featured := false
    created_at := now
    updated_at := now }

/-- `transform_shop`: skip on missing/blank coordinates, skip on
unparseable coordinates, otherwise build the record, warning (but not
skipping) when the coordinates fall outside the Seoul bounds.  The
`index` argument is accepted and unused, as in the source. -/
def transform_shop (shop_id now : String) (row : ShopRow) (_index : Nat) : TransformOutcome :=
  if pyFalsy row.latitude || pyFalsy row.longitude then .skipNoCoordinates
  else
    match pyFloatParse (row.latitude.getD ""), pyFloatParse (row.longitude.getD "") with
    | some lat, some lon => .built (!inSeoulBounds lat lon) (buildShop shop_id now row lat lon)
    | _, _ => .skipInvalidCoordinates

/-- Accumulated state of the transformer's `main` loop: the output list,
the skip counter, and the records echoed by the `if idx <= 5` print. -/
structure TransformRun where
  shops : List NormalizedShop
  skipped : Nat
  echoed : List NormalizedShop
deriving DecidableEq

/-- The `main` loop of the transformer over the remaining rows, starting
at 1-based row index `idx`.  `ids` and `nows` supply the per-row UUID and
timestamp. -/
def transformLoop (ids nows : Nat → String) (idx : Nat) : List ShopRow → TransformRun
  | [] => ⟨[], 0, []⟩
  | row :: rows =>
    let rest := transformLoop ids nows (idx + 1) rows
    match transform_shop (ids idx) (nows idx) row idx with
    | .built _ shop =>
      ⟨shop :: rest.shops, rest.skipped, if idx ≤ 5 then shop :: rest.echoed else rest.echoed⟩
    | _ => ⟨rest.shops, rest.skipped + 1, rest.echoed⟩

/-- `main` of the transformer: enumerate rows from index 1. -/
def transform_main (ids nows : Nat → String) (rows : List ShopRow) : TransformRun :=
  transformLoop ids nows 1 rows

/-- The sample batch written at the end of `main`: `shops[:10]`. -/
def test_batch (shops : List NormalizedShop) : List NormalizedShop :=
  shops.take 10

/-! ## geocode_korean_addresses.py -/

/-- Input row of the geocoder (columns used: SHOP_NAME, ADDRESS). -/
structure GeoRow where
  shop_name : String
  address : String
deriving DecidableEq

/-- One Kakao address document: `x` is longitude, `y` is latitude. -/
structure KakaoDoc where
  x : ℚ
  y : ℚ
deriving DecidableEq

/-- Outcome of one Kakao HTTP request, as consumed by the script:
a transport/HTTP error, or a JSON body with a documents array. -/
inductive KakaoReply where
  | requestError : KakaoReply
  | payload (documents : List KakaoDoc) : KakaoReply

/-- One Google geometry.location object. -/
structure GoogleLocation where
  lat : ℚ
  lng : ℚ
deriving DecidableEq

/-- Outcome of one Google HTTP request: a transport/HTTP error, or a JSON
body with a status string and a results array of locations. -/
inductive GoogleReply where
  | requestError : GoogleReply
  | payload (status : String) (results : List GoogleLocation) : GoogleReply

/-- The fatal error of the geocoder: missing API credential. -/
inductive GeoFailure where
  | configError : GeoFailure
deriving DecidableEq

/-- `geocode_address_kakao`: raise on missing key, swallow transport
errors and empty document arrays as `none`, and swap Kakao's
(x = longitude, y = latitude) fields into a canonical `(lat, lon)` pair. -/
def geocode_address_kakao (kakao_api_key : String) (api : String → KakaoReply)
    (address : String) : Except GeoFailure (Option (ℚ × ℚ)) :=
  if kakao_api_key.data.isEmpty then .error .configError
  else
    match api address with
    | .requestError => .ok none
    | .payload documents =>
      match documents with
      | [] => .ok none
      | d :: _ => .ok (some (d.y, d.x))

/-- `geocode_address_google`: raise on missing key, swallow transport
errors as `none`, and emit `(lat, lng)` of the first result when the
status is OK and the results array is non-empty. -/
def geocode_address_google (google_api_key : String) (api : String → GoogleReply)
    (address : String) : Except GeoFailure (Option (ℚ × ℚ)) :=
  if google_api_key.data.isEmpty then .error .configError
  else
    match api address with
    | .requestError => .ok none
    | .payload status results =>
      match results with
      | [] => .ok none
      | loc :: _ => if status == "OK" then .ok (some (loc.lat, loc.lng)) else .ok none

/-- Output row of the geocoder: the original row plus the two appended
coordinate columns (`none` models the empty string). -/
structure GeoOutRow where
  base : GeoRow
  latitude : Option ℚ
  longitude : Option ℚ
deriving DecidableEq

/-- Observable state of one `process_csv` run: the rows written to the
output file, the two counters, the addresses actually passed to the
geocoding function, and the uncaught error, if any, that aborted the run. -/
structure GeoRun where
  written : List GeoOutRow
  rows_processed : Nat
  rows_geocoded : Nat
  provider_calls : List String
  failure : Option GeoFailure
deriving DecidableEq

/-- `process_csv` over the remaining input rows.  Each row is counted,
then either written with empty coordinates (blank address, no lookup), or
geocoded through `geocode_func`; an exception from `geocode_func` aborts
the run, after the erroring row has been read and counted but not
written. -/
def process_csv (geocode_func : String → Except GeoFailure (Option (ℚ × ℚ))) :
    List GeoRow → GeoRun
  | [] => ⟨[], 0, 0, [], none⟩
  | row :: rows =>
    let address := pyStrip row.address
    if address.data.isEmpty then
      let rest := process_csv geocode_func rows
      ⟨⟨row, none, none⟩ :: rest.written, rest.rows_processed + 1, rest.rows_geocoded,
        rest.provider_calls, rest.failure⟩
    else
      match geocode_func address with
      | .error e => ⟨[], 1, 0, [address], some e⟩
      | .ok (some (lat, lon)) =>
        let rest := process_csv geocode_func rows
        ⟨⟨row, some lat, some lon⟩ :: rest.written, rest.rows_processed + 1,
          rest.rows_geocoded + 1, address :: rest.provider_calls, rest.failure⟩
      | .ok none =>
        let rest := process_csv geocode_func rows
        ⟨⟨row, none, none⟩ :: rest.written, rest.rows_processed + 1, rest.rows_geocoded,
          address :: rest.provider_calls, rest.failure⟩

/-- The `categories` list computed inside `parse_shop_type`. -/
def shopTypeCategories (type_str : String) : List String :=
  ((splitOnChar ',' (pyReplaceChar '，' ',' type_str.data)).map fun g =>
    String.mk (trimChars g)).map mapCategoryToken

/-! ## Concrete example inputs used by witnesses and counterexamples -/

/-- A row with valid in-bounds coordinates. -/
def exGoodRow : ShopRow :=
  ⟨"Good Shop", "Seoul", "02 123", "네일미용업", some "37.5", some "127.0"⟩

/-- A row with a blank LATITUDE field (the spec scenario for a skip). -/
def exBlankLatRow : ShopRow :=
  ⟨"Blank Shop", "Seoul", "02 123", "네일미용업", some "", some "127.0"⟩

/-- A row with parseable coordinates outside the Seoul bounding box. -/
def exOutOfBoundsRow : ShopRow :=
  ⟨"Far Shop", "Busan", "02 123", "네일미용업", some "40.0", some "127.0"⟩

/-- A fixed UUID supply. -/
def exIds : Nat → String := fun _ => "id-ex"

/-- A fixed timestamp supply. -/
def exNows : Nat → String := fun _ => "now-ex"

/-- Six rows whose first row is skipped and whose five later rows all build. -/
def exRows6 : List ShopRow :=
  [exBlankLatRow, exGoodRow, exGoodRow, exGoodRow, exGoodRow, exGoodRow]

/-- A Kakao oracle that always returns one document (x = 127.0, y = 37.5). -/
def exKakaoApi : String → KakaoReply :=
  fun _ => .payload [⟨mkRat 1270 10, mkRat 375 10⟩]

/-- A Google oracle that always returns OK with one location (37.5, 127.0). -/
def exGoogleApi : String → GoogleReply :=
  fun _ => .payload "OK" [⟨mkRat 375 10, mkRat 1270 10⟩]

/-- Two geocoder rows: one with an address, one whitespace-only. -/
def exGeoRows : List GeoRow :=
  [⟨"Shop S", "서울 강남구"⟩, ⟨"Shop T", "  "⟩]

/-- Two geocoder rows: a whitespace-only address first, then a real one. -/
def exGeoRows2 : List GeoRow :=
  [⟨"Shop T", "  "⟩, ⟨"Shop S", "서울 강남구"⟩]

/-- Well-collapsed whitespace: every whitespace char is a plain space and
no two spaces are adjacent. -/
def wellCollapsed : List Char → Bool
  | [] => true
  | a :: rest =>
    (!a.isWhitespace || a == ' ') &&
    (match rest with
     | [] => true
     | b :: _ => !(a == ' ' && b == ' ')) && wellCollapsed rest

/-! ## Helper lemmas -/

theorem dedupFirstSeen_subset (seen l : List String) :
    ∀ x ∈ dedupFirstSeen seen l, x ∈ l := by
  induction l generalizing seen with
  | nil => simp [dedupFirstSeen]
  | cons c cs ih =>
    intro x hx
    simp only [dedupFirstSeen] at hx
    cases hc : seen.contains c with
    | true =>
      rw [hc] at hx
      simp only [if_pos] at hx
      exact List.mem_cons_of_mem _ (ih seen x hx)
    | false =>
      rw [hc] at hx
      simp only [Bool.false_eq_true, if_neg, not_false_iff] at hx
      rcases List.mem_cons.mp hx with rfl | hx
      · exact List.mem_cons_self _ _
      · exact List.mem_cons_of_mem _ (ih _ x hx)

theorem mapCategoryToken_mem (t : String) :
    mapCategoryToken t ∈ REACHABLE_CATEGORIES := by
  have hall : ∀ p ∈ CATEGORY_MAPPING, p.2 ∈ REACHABLE_CATEGORIES := by decide
  unfold mapCategoryToken
  cases h1 : CATEGORY_MAPPING.find? (fun p => p.1 == t) with
  | some p => exact hall p (List.mem_of_find?_eq_some h1)
  | none =>
    cases h2 : CATEGORY_MAPPING.find? (fun p => substrCheck p.1.data t.data) with
    | some p => exact hall p (List.mem_of_find?_eq_some h2)
    | none => decide

theorem parse_shop_type_fst (s : String) :
    (parse_shop_type s).1 = (dedupFirstSeen [] (shopTypeCategories s)).headD "hair" := by
  simp only [parse_shop_type, shopTypeCategories]
  generalize dedupFirstSeen [] _ = u
  cases u with
  | nil => rfl
  | cons m rest => rfl

theorem parse_shop_type_snd_getD (s : String) :
    (parse_shop_type s).2.getD [] = (dedupFirstSeen [] (shopTypeCategories s)).tail := by
  simp only [parse_shop_type, shopTypeCategories]
  generalize dedupFirstSeen [] _ = u
  cases u with
  | nil => rfl
  | cons m rest => cases rest <;> rfl

theorem parse_shop_type_main_reachable (s : String) :
    (parse_shop_type s).1 ∈ REACHABLE_CATEGORIES := by
  rw [ parse_shop_type_fst]
  cases hd : dedupFirstSeen [] (shopTypeCategories s) with
  | nil => decide
  | cons m rest =>
    have hm : m ∈ dedupFirstSeen [] (shopTypeCategories s) := by
      rw [hd]; exact List.mem_cons_self m rest
    obtain ⟨t, _, rfl⟩ := List.mem_map.mp (dedupFirstSeen_subset _ _ m hm)
    simpa using mapCategoryToken_mem t

theorem parse_shop_type_sub_reachable (s : String) :
    ∀ x ∈ (parse_shop_type s).2.getD [], x ∈ REACHABLE_CATEGORIES := by
  intro x hx
  rw [ parse_shop_type_snd_getD] at hx
  obtain ⟨t, _, rfl⟩ :=
    List.mem_map.mp (dedupFirstSeen_subset _ _ x (List.mem_of_mem_tail hx))
  exact mapCategoryToken_mem t

/-! ## Claims -/

/-- Claim C1: `parse_shop_type` always returns a main category that belongs
to the fixed five-value enumeration, never empty and never a label outside
that set, and as a pure function it is deterministic: equal input strings
yield equal `(main, sub)` pairs. -/
theorem claim_C1_parse_shop_type_total_deterministic : ∀ s : String,
    (parse_shop_type s).1 ∈ VALID_CATEGORIES
    ∧ ((parse_shop_type s).1 == "") = false
    ∧ (∀ t : String, s = t → parse_shop_type s = parse_shop_type t) := by
  intro s
  have hvalid : ∀ x ∈ REACHABLE_CATEGORIES, x ∈ VALID_CATEGORIES ∧ (x == "") = false := by
    decide
  have hmem := parse_shop_type_main_reachable s
  exact ⟨(hvalid _ hmem).1, (hvalid _ hmem).2, fun t h => by rw [h]⟩

/-- Witness for C1 at the concrete input `"네일미용업"`. -/
theorem claim_C1_witness :
    (parse_shop_type "네일미용업").1 ∈ VALID_CATEGORIES
    ∧ ((parse_shop_type "네일미용업").1 == "") = false
    ∧ parse_shop_type "네일미용업" = parse_shop_type "네일미용업" := by
  have h := claim_C1_parse_shop_type_total_deterministic "네일미용업"
  exact ⟨h.1, h.2.1, h.2.2 _ rfl⟩

/-- Claim C10: `parse_shop_type` can never produce the value `"eyelash"`,
neither as main category nor among the sub-categories, even though
`"eyelash"` is in the declared enumeration: no entry of the category
dictionary maps to it and the default is `"hair"`. -/
theorem claim_C10_eyelash_unreachable : ∀ s : String,
    ((parse_shop_type s).1 == "eyelash") = false
    ∧ (((parse_shop_type s).2.getD []).all fun x => !(x == "eyelash")) = true
    ∧ "eyelash" ∈ VALID_CATEGORIES
    ∧ (CATEGORY_MAPPING.all fun p => !(p.2 == "eyelash")) = true := by
  intro s
  have hne : ∀ x ∈ REACHABLE_CATEGORIES, (!(x == "eyelash")) = true := by decide
  refine ⟨?_, ?_, by decide, by decide⟩
  · have := hne _ (parse_shop_type_main_reachable s)
    simpa using this
  · exact List.all_eq_true.mpr fun x hx => hne x (parse_shop_type_sub_reachable s x hx)

theorem wsSplitAux_words (l : List Char) : ∀ cur : List Char,
    (∀ c ∈ cur, c.isWhitespace = false) →
    ∀ w ∈ wsSplitAux cur l, w ≠ [] ∧ ∀ c ∈ w, c.isWhitespace = false := by
  induction l with
  | nil =>
    intro cur hcur w hw
    simp only [wsSplitAux] at hw
    cases hc : cur.isEmpty with
    | true => rw [hc] at hw; simp at hw
    | false =>
      rw [hc] at hw
      simp only [Bool.false_eq_true, if_neg, not_false_iff, List.mem_singleton] at hw
      subst hw
      constructor
      · intro habs
        have : cur = [] := by
          have := congrArg List.reverse habs
          simpa using this
        rw [this] at hc
        simp [List.isEmpty] at hc
      · intro c hc2
        exact hcur c (List.mem_reverse.mp hc2)
  | cons a as ih =>
    intro cur hcur w hw
    simp only [wsSplitAux] at hw
    cases hws : a.isWhitespace with
    | true =>
      rw [hws] at hw
      simp only [if_pos] at hw
      cases hc : cur.isEmpty with
      | true =>
        rw [hc] at hw
        simp only [if_pos] at hw
        exact ih [] (by simp) w hw
      | false =>
        rw [hc] at hw
        simp only [Bool.false_eq_true, if_neg, not_false_iff] at hw
        rcases List.mem_cons.mp hw with rfl | hw
        · constructor
          · intro habs
            have : cur = [] := by
              have := congrArg List.reverse habs
              simpa using this
            rw [this] at hc
            simp [List.isEmpty] at hc
          · intro c hc2
            exact hcur c (List.mem_reverse.mp hc2)
        · exact ih [] (by simp) w hw
    | false =>
      rw [hws] at hw
      simp only [Bool.false_eq_true, if_neg, not_false_iff] at hw
      refine ih (a :: cur) ?_ w hw
      intro c hc2
      rcases List.mem_cons.mp hc2 with rfl | hc2
      · exact hws
      · exact hcur c hc2

theorem char_beq_space_eq_false {a : Char} (h : a.isWhitespace = false) :
    (a == ' ') = false := by
  cases he : a == ' ' with
  | true =>
    have : a = ' ' := eq_of_beq he
    rw [this] at h
    simp [Char.isWhitespace] at h
  | false => rfl

theorem wellCollapsed_append (w rest : List Char)
    (hw : ∀ c ∈ w, c.isWhitespace = false) (hr : wellCollapsed rest = true) :
    wellCollapsed (w ++ rest) = true := by
  induction w with
  | nil => simpa using hr
  | cons a as ih =>
    have ha : a.isWhitespace = false := hw a (List.mem_cons_self _ _)
    have hnsp : (a == ' ') = false := char_beq_space_eq_false ha
    have hrec : wellCollapsed (as ++ rest) = true :=
      ih fun c hc => hw c (List.mem_cons_of_mem _ hc)
    show wellCollapsed (a :: (as ++ rest)) = true
    cases hl : as ++ rest with
    | nil => simp [wellCollapsed, ha, hnsp]
    | cons b bs =>
      rw [hl] at hrec
      have hstep : wellCollapsed (a :: b :: bs) =
          ((!a.isWhitespace || a == ' ') && (!(a == ' ' && b == ' ')) &&
            wellCollapsed (b :: bs)) := rfl
      rw [hstep, ha, hnsp, hrec]
      simp

theorem wellCollapsed_space_cons (l : List Char) (h : wellCollapsed l = true)
    (hhead : ∀ b bs, l = b :: bs → (b == ' ') = false) :
    wellCollapsed (' ' :: l) = true := by
  cases l with
  | nil => rfl
  | cons b bs =>
    have hb : (b == ' ') = false := hhead b bs rfl
    have hstep : wellCollapsed (' ' :: b :: bs) =
        ((!(' ').isWhitespace || ' ' == ' ') && (!(' ' == ' ' && b == ' ')) &&
          wellCollapsed (b :: bs)) := rfl
    rw [hstep, hb, h]
    simp

theorem joinSpaceChars_head (c : Char) (cs : List Char) (t : List (List Char)) :
    ∃ tail, joinSpaceChars ((c :: cs) :: t) = c :: tail := by
  cases t with
  | nil => exact ⟨cs, rfl⟩
  | cons w2 t2 => exact ⟨cs ++ ' ' :: joinSpaceChars (w2 :: t2), rfl⟩

theorem joinSpaceChars_wellCollapsed : ∀ ws : List (List Char),
    (∀ w ∈ ws, w ≠ [] ∧ ∀ c ∈ w, c.isWhitespace = false) →
    wellCollapsed (joinSpaceChars ws) = true := by
  intro ws
  induction ws with
  | nil => intro _; rfl
  | cons w t ih =>
    intro h
    have hw := h w (List.mem_cons_self _ _)
    cases t with
    | nil =>
      show wellCollapsed w = true
      simpa using wellCollapsed_append w [] hw.2 rfl
    | cons w2 t2 =>
      have hrest : ∀ v ∈ w2 :: t2, v ≠ [] ∧ ∀ c ∈ v, c.isWhitespace = false :=
        fun v hv => h v (List.mem_cons_of_mem _ hv)
      have hjoin : wellCollapsed (joinSpaceChars (w2 :: t2)) = true := ih hrest
      have hw2 := hrest w2 (List.mem_cons_self _ _)
      show wellCollapsed (w ++ ' ' :: joinSpaceChars (w2 :: t2)) = true
      refine wellCollapsed_append w (' ' :: joinSpaceChars (w2 :: t2)) hw.2 ?_
      refine wellCollapsed_space_cons _ hjoin ?_
      intro b bs hb
      obtain ⟨c, cs, rfl⟩ : ∃ c cs, w2 = c :: cs := by
        cases w2 with
        | nil => exact absurd rfl hw2.1
        | cons c cs => exact ⟨c, cs, rfl⟩
      obtain ⟨tail, htail⟩ := joinSpaceChars_head c cs t2
      rw [htail] at hb
      have hcw : c.isWhitespace = false := hw2.2 c (List.mem_cons_self _ _)
      have : b = c := by
        injection hb with h1 _
        exact h1.symm
      rw [this]
      exact char_beq_space_eq_false hcw

/-- Claim C8: `clean_phone_number` collapses whitespace runs to single
spaces, the spec scenario `"02  123  4567"` maps to `"02 123 4567"`, the
result always starts with the digit 0, and the digit 0 is prepended
exactly when the collapsed string does not already start with it. -/
theorem claim_C8_clean_phone_number :
    clean_phone_number "02  123  4567" = "02 123 4567"
    ∧ (∀ phone : String, wellCollapsed (clean_phone_number phone).data = true)
    ∧ (∀ phone : String, listPrefixCheck ['0'] (clean_phone_number phone).data = true)
    ∧ (∀ phone : String, clean_phone_number phone =
        if listPrefixCheck ['0'] (joinSpaceChars (wsSplitAux [] phone.data)) then
          String.mk (joinSpaceChars (wsSplitAux [] phone.data))
        else String.mk ('0' :: joinSpaceChars (wsSplitAux [] phone.data))) := by
  refine ⟨by decide, ?_, ?_, fun phone => rfl⟩
  · intro phone
    have hcoll : wellCollapsed (joinSpaceChars (wsSplitAux [] phone.data)) = true :=
      joinSpaceChars_wellCollapsed _ (wsSplitAux_words phone.data [] (by simp))
    show wellCollapsed (clean_phone_number phone).data = true
    simp only [clean_phone_number]
    cases hp : listPrefixCheck ['0'] (joinSpaceChars (wsSplitAux [] phone.data)) with
    | true => simpa using hcoll
    | false =>
      simp only [Bool.false_eq_true, if_neg, not_false_iff]
      show wellCollapsed ('0' :: joinSpaceChars (wsSplitAux [] phone.data)) = true
      have h0 : ∀ c ∈ ['0'], c.isWhitespace = false := by decide
      exact wellCollapsed_append ['0'] _ h0 hcoll
  · intro phone
    simp only [clean_phone_number]
    cases hp : listPrefixCheck ['0'] (joinSpaceChars (wsSplitAux [] phone.data)) with
    | true => simpa using hp
    | false =>
      simp only [Bool.false_eq_true, if_neg, not_false_iff]
      show listPrefixCheck ['0'] ('0' :: joinSpaceChars (wsSplitAux [] phone.data)) = true
      simp [listPrefixCheck]

theorem transformLoop_echoed (ids nows : Nat → String) :
    ∀ (rows : List ShopRow) (idx : Nat),
      (transformLoop ids nows idx rows).echoed =
        (transformLoop ids nows idx (rows.take (6 - idx))).shops := by
  intro rows
  induction rows with
  | nil => intro idx; simp [transformLoop, List.take_nil]
  | cons r rs ih =>
    intro idx
    by_cases h : idx ≤ 5
    · have h6 : 6 - idx = (6 - (idx + 1)) + 1 := by omega
      rw [h6, List.take_succ_cons]
      cases ho : transform_shop (ids idx) (nows idx) r idx with
      | built w shop => simp [transformLoop, ho, h, ih (idx + 1)]
      | skipNoCoordinates => simp [transformLoop, ho, ih (idx + 1)]
      | skipInvalidCoordinates => simp [transformLoop, ho, ih (idx + 1)]
    · have h6 : 6 - idx = 0 := by omega
      have h7 : 6 - (idx + 1) = 0 := by omega
      have htail := ih (idx + 1)
      rw [h7, List.take_zero] at htail
      rw [h6, List.take_zero]
      cases ho : transform_shop (ids idx) (nows idx) r idx with
      | built w shop => simp [transformLoop, ho, h, htail]
      | skipNoCoordinates => simp [transformLoop, ho, htail]
      | skipInvalidCoordinates => simp [transformLoop, ho, htail]

/-- Claim C3 (amended): the `idx <= 5` echo in `main` echoes the records
built from the first five input rows, i.e. the echoed list equals the
record list a run over only the first five rows would produce — it is the
first five successful records only when no row among the first five is
skipped. -/
theorem claim_C3_amended_echo_first_five_rows (ids nows : Nat → String) (rows : List ShopRow) :
    (transform_main ids nows rows).echoed = (transform_main ids nows (rows.take 5)).shops :=
  transformLoop_echoed ids nows rows 1

/-- Claim C3 counterexample: with a skipped first row followed by five
buildable rows, only four records are echoed, so the echoed list is not
the first five successfully built records. -/
theorem claim_C3_counterexample :
    ¬ ((transform_main exIds exNows exRows6).echoed =
        (transform_main exIds exNows exRows6).shops.take 5) := by decide

/-- Claim C4: a row whose LATITUDE or LONGITUDE is missing or blank, or
whose present values fail to parse, produces no record: `transform_shop`
returns a skip outcome, and in the `main` loop such a row leaves the
output list and the echo list unchanged, increments the skip counter, and
the remaining rows are still processed. -/
theorem claim_C4_invalid_coordinates_skip : ∀ row : ShopRow,
    (pyFalsy row.latitude = true ∨ pyFalsy row.longitude = true
      ∨ pyFloatParse (row.latitude.getD "") = none
      ∨ pyFloatParse (row.longitude.getD "") = none) →
    (∀ sid now idx, transform_shop sid now row idx = .skipNoCoordinates
        ∨ transform_shop sid now row idx = .skipInvalidCoordinates)
    ∧ (∀ ids nows idx rest, transformLoop ids nows idx (row :: rest) =
        ⟨(transformLoop ids nows (idx + 1) rest).shops,
         (transformLoop ids nows (idx + 1) rest).skipped + 1,
         (transformLoop ids nows (idx + 1) rest).echoed⟩) := by
  intro row h
  have hskip : ∀ sid now idx, transform_shop sid now row idx = .skipNoCoordinates
      ∨ transform_shop sid now row idx = .skipInvalidCoordinates := by
    intro sid now idx
    cases hf : (pyFalsy row.latitude || pyFalsy row.longitude) with
    | true => exact Or.inl (by simp [transform_shop, hf])
    | false =>
      obtain ⟨hfla, hflo⟩ := Bool.or_eq_false_iff.mp hf
      right
      rcases h with h | h | h | h
      · rw [hfla] at h; exact absurd h (by simp)
      · rw [hflo] at h; exact absurd h (by simp)
      · simp [transform_shop, hf, h]
      · cases hp1 : pyFloatParse (row.latitude.getD "") <;>
          simp [transform_shop, hf, h, hp1]
  refine ⟨hskip, fun ids nows idx rest => ?_⟩
  simp only [transformLoop]
  rcases hskip (ids idx) (nows idx) idx with ho | ho <;> rw [ho]

/-- Witness for C4 at the spec scenario row with LATITUDE equal to the
empty string. -/
theorem claim_C4_witness :
    (transform_shop "i" "t" exBlankLatRow 1 = .skipNoCoordinates
      ∨ transform_shop "i" "t" exBlankLatRow 1 = .skipInvalidCoordinates)
    ∧ transformLoop exIds exNows 1 [exBlankLatRow] =
        ⟨(transformLoop exIds exNows 2 []).shops,
         (transformLoop exIds exNows 2 []).skipped + 1,
         (transformLoop exIds exNows 2 []).echoed⟩ := by
  have h := claim_C4_invalid_coordinates_skip exBlankLatRow (Or.inl (by decide))
  exact ⟨h.1 "i" "t" 1, h.2 exIds exNows 1 []⟩

/-- Claim C5: a row whose coordinates parse but need not lie in the Seoul
box still builds a record; when the box test fails the warning flag is
set and the very same record (via `buildShop`) is produced as for an
in-bounds row. -/
theorem claim_C5_out_of_bounds_still_built :
    ∀ (sid now : String) (row : ShopRow) (idx : Nat) (slat slon : String) (lat lon : ℚ),
    row.latitude = some slat → row.longitude = some slon →
    pyFloatParse slat = some lat → pyFloatParse slon = some lon →
    transform_shop sid now row idx =
      .built (!inSeoulBounds lat lon) (buildShop sid now row lat lon)
    ∧ (inSeoulBounds lat lon = false →
        transform_shop sid now row idx = .built true (buildShop sid now row lat lon)) := by
  intro sid now row idx slat slon lat lon hla hlo hpa hpo
  have hblank : ∀ u : String, u.data.isEmpty = true → pyFloatParse u = none := by
    intro u hu
    have hnil : u.data = [] := by
      cases hd : u.data with
      | nil => rfl
      | cons c cs => rw [hd] at hu; simp [List.isEmpty] at hu
    have hs : u = String.mk [] := by
      cases u with
      | mk d => simp at hnil; rw [hnil]
    rw [hs]; rfl
  have hfla : pyFalsy (some slat) = false := by
    show slat.data.isEmpty = false
    cases hx : slat.data.isEmpty with
    | false => rfl
    | true => rw [hblank slat hx] at hpa; exact absurd hpa (by simp)
  have hflo : pyFalsy (some slon) = false := by
    show slon.data.isEmpty = false
    cases hx : slon.data.isEmpty with
    | false => rfl
    | true => rw [hblank slon hx] at hpo; exact absurd hpo (by simp)
  have hmain : transform_shop sid now row idx =
      .built (!inSeoulBounds lat lon) (buildShop sid now row lat lon) := by
    simp [transform_shop, hla, hlo, hfla, hflo, hpa, hpo]
  exact ⟨hmain, fun hb => by rw [hmain, hb]; rfl⟩

/-- Witness for C5 at the spec scenario row with coordinates (40.0, 127.0),
outside the bounding box. -/
theorem claim_C5_witness :
    transform_shop "i" "t" exOutOfBoundsRow 1 =
      .built (!inSeoulBounds (mkRat 400 10) (mkRat 1270 10))
        (buildShop "i" "t" exOutOfBoundsRow (mkRat 400 10) (mkRat 1270 10))
    ∧ transform_shop "i" "t" exOutOfBoundsRow 1 =
      .built true (buildShop "i" "t" exOutOfBoundsRow (mkRat 400 10) (mkRat 1270 10)) := by
  have h := claim_C5_out_of_bounds_still_built "i" "t" exOutOfBoundsRow 1
    "40.0" "127.0" (mkRat 400 10) (mkRat 1270 10) rfl rfl (by decide) (by decide)
  exact ⟨h.1, h.2 (by decide)⟩

/-- Claim C9: the sample batch is `shops[:10]`: a prefix of the full
output list, of length `min 10 |S|`, and every record in it is present in
the full output. -/
theorem claim_C9_sample_batch_prefix_of_output (ids nows : Nat → String) (rows : List ShopRow) :
    test_batch (transform_main ids nows rows).shops <+: (transform_main ids nows rows).shops
    ∧ (test_batch (transform_main ids nows rows).shops).length =
        min 10 (transform_main ids nows rows).shops.length
    ∧ test_batch (transform_main ids nows rows).shops ⊆ (transform_main ids nows rows).shops :=
  ⟨⟨(transform_main ids nows rows).shops.drop 10, List.take_append_drop 10 _⟩,
    List.length_take 10 _, List.take_subset 10 _⟩

/-- Claim C6: in every geocoder output row, latitude and longitude are
both present or both empty; rows whose trimmed address is empty get both
columns empty, and every address actually passed to the geocoding
function is non-empty (so empty-address rows trigger no provider call). -/
theorem claim_C6_both_or_neither_coordinates :
    ∀ (gf : String → Except GeoFailure (Option (ℚ × ℚ))) (rows : List GeoRow),
    (∀ out ∈ (process_csv gf rows).written,
        out.latitude.isSome = out.longitude.isSome
        ∧ ((pyStrip out.base.address).data.isEmpty = true →
            out.latitude = none ∧ out.longitude = none))
    ∧ (∀ a ∈ (process_csv gf rows).provider_calls, a.data.isEmpty = false) := by
  intro gf rows
  induction rows with
  | nil => exact ⟨by simp [process_csv], by simp [process_csv]⟩
  | cons r rs ih =>
    cases he : (pyStrip r.address).data.isEmpty with
    | true =>
      constructor
      · intro out hout
        simp only [process_csv, he, if_pos, List.mem_cons] at hout
        rcases hout with rfl | hout
        · exact ⟨rfl, fun _ => ⟨rfl, rfl⟩⟩
        · exact ih.1 out hout
      · intro a ha
        simp only [process_csv, he, if_pos] at ha
        exact ih.2 a ha
    | false =>
      cases hg : gf (pyStrip r.address) with
      | error e =>
        constructor
        · intro out hout
          simp [process_csv, he, hg] at hout
        · intro a ha
          simp [process_csv, he, hg] at ha
          rw [ha]
          exact he
      | ok oc =>
        cases oc with
        | none =>
          constructor
          · intro out hout
            simp [process_csv, he, hg] at hout
            rcases hout with rfl | hout
            · exact ⟨rfl, fun _ => ⟨rfl, rfl⟩⟩
            · exact ih.1 out hout
          · intro a ha
            simp [process_csv, he, hg] at ha
            rcases ha with rfl | ha
            · exact he
            · exact ih.2 a ha
        | some c =>
          obtain ⟨lat, lon⟩ := c
          constructor
          · intro out hout
            simp [process_csv, he, hg] at hout
            rcases hout with rfl | hout
            · refine ⟨rfl, fun hemp => ?_⟩
              rw [he] at hemp
              exact absurd hemp (by simp)
            · exact ih.1 out hout
          · intro a ha
            simp [process_csv, he, hg] at ha
            rcases ha with rfl | ha
            · exact he
            · exact ih.2 a ha

/-- Witness for C6 on a concrete two-row run (one real address, one
whitespace-only address) against a Kakao oracle with a present key. -/
theorem claim_C6_witness :
    ((⟨⟨"Shop T", "  "⟩, none, none⟩ : GeoOutRow).latitude.isSome =
      (⟨⟨"Shop T", "  "⟩, none, none⟩ : GeoOutRow).longitude.isSome)
    ∧ ((⟨⟨"Shop T", "  "⟩, none, none⟩ : GeoOutRow).latitude = none
        ∧ (⟨⟨"Shop T", "  "⟩, none, none⟩ : GeoOutRow).longitude = none)
    ∧ ("서울 강남구" : String).data.isEmpty = false := by
  have h := claim_C6_both_or_neither_coordinates (geocode_address_kakao "KEY" exKakaoApi) exGeoRows
  exact ⟨(h.1 ⟨⟨"Shop T", "  "⟩, none, none⟩ (by decide)).1,
    (h.1 ⟨⟨"Shop T", "  "⟩, none, none⟩ (by decide)).2 (by decide),
    h.2 "서울 강남구" (by decide)⟩

/-- Claim C7: on a successful lookup both providers emit the canonical
(latitude, longitude) order: the Kakao path swaps the x/y fields into
(y, x) and the Google path takes (lat, lng), so equivalent responses
yield the same pair. -/
theorem claim_C7_canonical_coordinate_order :
    ∀ (kkey gkey address : String) (kapi : String → KakaoReply) (gapi : String → GoogleReply)
      (d : KakaoDoc) (ds : List KakaoDoc) (gl : GoogleLocation) (gls : List GoogleLocation),
    kkey.data.isEmpty = false → gkey.data.isEmpty = false →
    kapi address = .payload (d :: ds) → gapi address = .payload "OK" (gl :: gls) →
    d.y = gl.lat → d.x = gl.lng →
    geocode_address_kakao kkey kapi address = .ok (some (d.y, d.x))
    ∧ geocode_address_google gkey gapi address = .ok (some (gl.lat, gl.lng))
    ∧ geocode_address_kakao kkey kapi address = geocode_address_google gkey gapi address := by
  intro kkey gkey address kapi gapi d ds gl gls hk hg hka hga hy hx
  have h1 : geocode_address_kakao kkey kapi address = .ok (some (d.y, d.x)) := by
    simp [geocode_address_kakao, hk, hka]
  have h2 : geocode_address_google gkey gapi address = .ok (some (gl.lat, gl.lng)) := by
    simp [geocode_address_google, hg, hga]
  exact ⟨h1, h2, by rw [h1, h2, hy, hx]⟩

/-- Witness for C7 on concrete equivalent responses (37.5, 127.0). -/
theorem claim_C7_witness :
    geocode_address_kakao "K" exKakaoApi "서울" =
      .ok (some ((⟨mkRat 1270 10, mkRat 375 10⟩ : KakaoDoc).y,
                 (⟨mkRat 1270 10, mkRat 375 10⟩ : KakaoDoc).x))
    ∧ geocode_address_google "G" exGoogleApi "서울" =
      .ok (some ((⟨mkRat 375 10, mkRat 1270 10⟩ : GoogleLocation).lat,
                 (⟨mkRat 375 10, mkRat 1270 10⟩ : GoogleLocation).lng))
    ∧ geocode_address_kakao "K" exKakaoApi "서울" =
      geocode_address_google "G" exGoogleApi "서울" := by
  have h := claim_C7_canonical_coordinate_order "K" "G" "서울" exKakaoApi exGoogleApi
    ⟨mkRat 1270 10, mkRat 375 10⟩ [] ⟨mkRat 375 10, mkRat 1270 10⟩ []
    (by decide) (by decide) rfl rfl rfl rfl
  exact h

/-- Claim C2 (amended): with the Kakao credential absent, every attempted
lookup raises the configuration error, so a run geocodes nothing; the
error surfaces at the first row whose trimmed address is non-empty (and
only then), the rows written before the abort are exactly empty-address
rows with empty coordinates, and at the abort the erroring row has
already been read and counted: the processed counter exceeds the written
rows by one. -/
theorem claim_C2_amended_missing_key_lazy_error :
    ∀ (kapi : String → KakaoReply) (rows : List GeoRow),
    (process_csv (geocode_address_kakao "" kapi) rows).rows_geocoded = 0
    ∧ ((process_csv (geocode_address_kakao "" kapi) rows).failure.isSome =
        rows.any fun r => !(pyStrip r.address).data.isEmpty)
    ∧ (∀ out ∈ (process_csv (geocode_address_kakao "" kapi) rows).written,
        (pyStrip out.base.address).data.isEmpty = true
        ∧ out.latitude = none ∧ out.longitude = none)
    ∧ ((process_csv (geocode_address_kakao "" kapi) rows).failure.isSome = true →
        (process_csv (geocode_address_kakao "" kapi) rows).rows_processed =
          (process_csv (geocode_address_kakao "" kapi) rows).written.length + 1) := by
  intro kapi rows
  have hkey : ∀ a, geocode_address_kakao "" kapi a = .error .configError := fun a => rfl
  induction rows with
  | nil =>
    refine ⟨rfl, rfl, by simp [process_csv], ?_⟩
    intro h
    simp [process_csv] at h
  | cons r rs ih =>
    obtain ⟨ih1, ih2, ih3, ih4⟩ := ih
    cases he : (pyStrip r.address).data.isEmpty with
    | true =>
      refine ⟨?_, ?_, ?_, ?_⟩
      · simp [process_csv, he, ih1]
      · simp [process_csv, he, ih2]
      · intro out hout
        simp [process_csv, he] at hout
        rcases hout with rfl | hout
        · exact ⟨he, rfl, rfl⟩
        · exact ih3 out hout
      · intro hfail
        have hf2 : (process_csv (geocode_address_kakao "" kapi) rs).failure.isSome = true := by
          simpa [process_csv, he] using hfail
        have := ih4 hf2
        simp only [process_csv, he, if_pos, List.length_cons]
        omega
    | false =>
      refine ⟨?_, ?_, ?_, ?_⟩
      · simp [process_csv, he, hkey]
      · simp [process_csv, he, hkey]
      · intro out hout
        simp [process_csv, he, hkey] at hout
      · intro _
        simp [process_csv, he, hkey]

/-- Witness for C2 (amended) on a concrete two-row run with a missing key:
an empty-address row followed by a real address. -/
theorem claim_C2_witness :
    (process_csv (geocode_address_kakao "" exKakaoApi) exGeoRows2).rows_geocoded = 0
    ∧ ((pyStrip (⟨⟨"Shop T", "  "⟩, none, none⟩ : GeoOutRow).base.address).data.isEmpty = true
        ∧ (⟨⟨"Shop T", "  "⟩, none, none⟩ : GeoOutRow).latitude = none
        ∧ (⟨⟨"Shop T", "  "⟩, none, none⟩ : GeoOutRow).longitude = none)
    ∧ (process_csv (geocode_address_kakao "" exKakaoApi) exGeoRows2).rows_processed =
        (process_csv (geocode_address_kakao "" exKakaoApi) exGeoRows2).written.length + 1 := by
  have h := claim_C2_amended_missing_key_lazy_error exKakaoApi exGeoRows2
  exact ⟨h.1, h.2.2.1 ⟨⟨"Shop T", "  "⟩, none, none⟩ (by decide), h.2.2.2 (by decide)⟩

/-- Claim C2 counterexample: with the credential absent, the run does
fail, but not before any row is processed: the first (empty-address) row
has been written and the erroring second row counted, so two rows were
read and one written before the error. -/
theorem claim_C2_counterexample :
    ¬ ((process_csv (geocode_address_kakao "" exKakaoApi) exGeoRows2).failure.isSome = true →
        (process_csv (geocode_address_kakao "" exKakaoApi) exGeoRows2).rows_processed = 0
        ∧ (process_csv (geocode_address_kakao "" exKakaoApi) exGeoRows2).written = []) := by
  decide
